import Mathlib

/-!
Verification development for the Work Hours Tracker
(src/Time_Tracker/Work_Hours.py).

The Python program is shallowly embedded below: the timer state machine
(start_timer / pause_timer / resume_timer / stop_timer), the JSON record
store (load_records / save_records / save_time_record), the edit dialog's
validation (save_changes) and the Excel export (export_data_to_excel) are
translated into pure Lean functions.  Wall-clock readings (time.time and
datetime.now) become explicit parameters; durable storage becomes an
explicit value threaded through the operations; Python exceptions become
an error sum type.  Floating-point second counts are modelled as exact
rationals.
-/

/-- PyError models the Python exceptions that the embedded code paths can
raise: AttributeError (calling a method on None), TypeError (arithmetic on
None), json.JSONDecodeError (unparseable storage), KeyError (missing dict
key) and ValueError (with its message). -/
inductive PyError where
  | attributeError
  | typeError
  | jsonDecodeError
  | keyError
  | valueError (msg : String)
deriving DecidableEq

deriving instance DecidableEq for Except

/-- DateTime models a Python datetime.datetime with whole-second
resolution (microseconds are not modelled; the program compares and
serializes only whole fields for the claims at hand). -/
structure DateTime where
  year : Nat
  month : Nat
  day : Nat
  hour : Nat
  minute : Nat
  second : Nat
deriving DecidableEq

/-- Date models a Python datetime.date, the result of the .date() method. -/
structure Date where
  year : Nat
  month : Nat
  day : Nat
deriving DecidableEq

/-- dtDate is the .date() method of a datetime: the calendar-date component. -/
def dtDate (dt : DateTime) : Date := ⟨dt.year, dt.month, dt.day⟩

/-- isLeap follows the Gregorian leap-year rule used by Python's calendar. -/
def isLeap (y : Nat) : Bool :=
  decide (y % 4 = 0) && (decide (y % 100 ≠ 0) || decide (y % 400 = 0))

/-- daysInMonth gives the number of days of a month, as enforced by the
datetime constructor. -/
def daysInMonth (y m : Nat) : Nat :=
  if m = 2 then (if isLeap y then 29 else 28)
  else if m = 4 ∨ m = 6 ∨ m = 9 ∨ m = 11 then 30
  else 31

/-- validYMD holds when datetime(year, month, day, ...) would succeed:
Python requires 1 <= year <= 9999, 1 <= month <= 12 and a day that exists
in that month. -/
def validYMD (y m d : Nat) : Bool :=
  decide (1 ≤ y) && decide (y ≤ 9999) && decide (1 ≤ m) && decide (m ≤ 12)
    && decide (1 ≤ d) && decide (d ≤ daysInMonth y m)

/-- date_le is Python's date comparison a <= b (lexicographic on the
year, month, day fields, which is chronological order). -/
def date_le (a b : Date) : Bool :=
  decide (a.year < b.year) ||
    (decide (a.year = b.year) &&
      (decide (a.month < b.month) ||
        (decide (a.month = b.month) && decide (a.day ≤ b.day))))

/-- date_lt is Python's strict date comparison a < b. -/
def date_lt (a b : Date) : Bool :=
  decide (a.year < b.year) ||
    (decide (a.year = b.year) &&
      (decide (a.month < b.month) ||
        (decide (a.month = b.month) && decide (a.day < b.day))))

/-- dtLt is Python's strict datetime comparison a < b (lexicographic on
all six fields, which is chronological order). -/
def dtLt (a b : DateTime) : Bool :=
  decide (a.year < b.year) ||
    (decide (a.year = b.year) &&
      (decide (a.month < b.month) ||
        (decide (a.month = b.month) &&
          (decide (a.day < b.day) ||
            (decide (a.day = b.day) &&
              (decide (a.hour < b.hour) ||
                (decide (a.hour = b.hour) &&
                  (decide (a.minute < b.minute) ||
                    (decide (a.minute = b.minute) &&
                      decide (a.second < b.second))))))))))

/-- daysFromCivil counts days from 1970-01-01 in the proleptic Gregorian
calendar (the standard civil-from-days algorithm, matching the ordinal
arithmetic behind Python date subtraction). -/
def daysFromCivil (y m d : Nat) : Int :=
  let yi : Int := y
  let mi : Int := m
  let di : Int := d
  let y2 : Int := if mi ≤ 2 then yi - 1 else yi
  let era : Int := Int.fdiv y2 400
  let yoe : Int := y2 - era * 400
  let mp : Int := (mi + 9) % 12
  let doy : Int := (153 * mp + 2) / 5 + di - 1
  let doe : Int := yoe * 365 + yoe / 4 - yoe / 100 + doy
  era * 146097 + doe - 719468

/-- toEpochSeconds encodes a datetime as whole seconds from the epoch;
differences of this encoding are exactly Python's
(b - a).total_seconds() for whole-second datetimes. -/
def toEpochSeconds (dt : DateTime) : Int :=
  daysFromCivil dt.year dt.month dt.day * 86400
    + dt.hour * 3600 + dt.minute * 60 + dt.second

/-- pad2 renders a natural number on at least two digits, zero-padded. -/
def pad2 (n : Nat) : String :=
  if n < 10 then "0" ++ toString n else toString n

/-- pad4 renders a natural number on at least four digits, zero-padded. -/
def pad4 (n : Nat) : String :=
  if n < 10 then "000" ++ toString n
  else if n < 100 then "00" ++ toString n
  else if n < 1000 then "0" ++ toString n
  else toString n

/-- isoformat is datetime.isoformat() for whole-second datetimes:
YYYY-MM-DDTHH:MM:SS. -/
def isoformat (dt : DateTime) : String :=
  pad4 dt.year ++ "-" ++ pad2 dt.month ++ "-" ++ pad2 dt.day ++ "T"
    ++ pad2 dt.hour ++ ":" ++ pad2 dt.minute ++ ":" ++ pad2 dt.second

/-- spanDigits splits a character list into its longest digit prefix and
the rest. -/
def spanDigits : List Char → List Char × List Char
  | [] => ([], [])
  | c :: cs =>
    if c.isDigit then
      let p := spanDigits cs
      (c :: p.1, p.2)
    else ([], c :: cs)

/-- digitsVal reads a digit list as a decimal number. -/
def digitsVal (ds : List Char) : Nat :=
  ds.foldl (fun a c => 10 * a + (c.toNat - 48)) 0

/-- expectChar consumes one expected literal character. -/
def expectChar (c : Char) : List Char → Option (List Char)
  | x :: r => if x = c then some r else none
  | [] => none

/-- parseField12 models a strptime numeric field: the regular expressions
CPython compiles for %m, %d, %H, %M, %S accept the whole digit run between
separators only when it is one or two digits long and its value lies in
the field's range. -/
def parseField12 (lo hi : Nat) (cs : List Char) : Option (Nat × List Char) :=
  let p := spanDigits cs
  let v := digitsVal p.1
  if (p.1.length = 1 ∨ p.1.length = 2) ∧ lo ≤ v ∧ v ≤ hi then some (v, p.2)
  else none

/-- skipWs1 models a literal space in a strptime format string, which
CPython turns into the pattern of one or more whitespace characters. -/
def skipWs1 : List Char → Option (List Char)
  | c :: r => if c.isWhitespace then some (r.dropWhile Char.isWhitespace) else none
  | [] => none

/-- strptimeDateTime is datetime.strptime(s, the format
%Y-%m-%d %H:%M:%S) returning none where Python raises ValueError:
%Y is exactly four digits, the other fields one or two digits within
range, nothing may remain after the seconds, and the assembled date must
be a valid calendar date. -/
def strptimeDateTime (s : String) : Option DateTime := do
  let p := spanDigits s.data
  guard (p.1.length = 4)
  let y := digitsVal p.1
  let r1 ← expectChar '-' p.2
  let m ← parseField12 1 12 r1
  let r2 ← expectChar '-' m.2
  let d ← parseField12 1 31 r2
  let r3 ← skipWs1 d.2
  let h ← parseField12 0 23 r3
  let r4 ← expectChar ':' h.2
  let mi ← parseField12 0 59 r4
  let r5 ← expectChar ':' mi.2
  let sec ← parseField12 0 59 r5
  guard (sec.2 = [] ∧ validYMD y m.1 d.1 = true)
  pure ⟨y, m.1, d.1, h.1, mi.1, sec.1⟩

/-- strptimeDate is datetime.strptime(s, the format %Y-%m-%d).date(),
returning none where Python raises ValueError. -/
def strptimeDate (s : String) : Option Date := do
  let p := spanDigits s.data
  guard (p.1.length = 4)
  let y := digitsVal p.1
  let r1 ← expectChar '-' p.2
  let m ← parseField12 1 12 r1
  let r2 ← expectChar '-' m.2
  let d ← parseField12 1 31 r2
  guard (d.2 = [] ∧ validYMD y m.1 d.1 = true)
  pure ⟨y, m.1, d.1⟩

/-- parse2 consumes exactly two digits. -/
def parse2 : List Char → Option (Nat × List Char)
  | a :: b :: r =>
    if a.isDigit && b.isDigit then
      some (10 * (a.toNat - 48) + (b.toNat - 48), r)
    else none
  | _ => none

/-- parse4 consumes exactly four digits. -/
def parse4 (cs : List Char) : Option (Nat × List Char) := do
  let h ← parse2 cs
  let l ← parse2 h.2
  pure (100 * h.1 + l.1, l.2)

/-- isoParse models datetime.fromisoformat on the canonical forms this
program writes and edits: a zero-padded date YYYY-MM-DD, optionally
followed by a single separator character and a time HH:MM or HH:MM:SS,
optionally followed by a dot and one to six fractional-second digits
(the fraction is discarded: only whole fields are kept).  All fields are
range-checked as the datetime constructor does; anything else yields
none, where Python raises ValueError. -/
def isoParse (s : String) : Option DateTime := do
  let yp ← parse4 s.data
  let r1 ← expectChar '-' yp.2
  let mp ← parse2 r1
  let r2 ← expectChar '-' mp.2
  let dp ← parse2 r2
  guard (validYMD yp.1 mp.1 dp.1 = true)
  match dp.2 with
  | [] => pure ⟨yp.1, mp.1, dp.1, 0, 0, 0⟩
  | _sep :: r3 => do
    let hp ← parse2 r3
    let r4 ← expectChar ':' hp.2
    let minp ← parse2 r4
    guard (hp.1 ≤ 23 ∧ minp.1 ≤ 59)
    match minp.2 with
    | [] => pure ⟨yp.1, mp.1, dp.1, hp.1, minp.1, 0⟩
    | ':' :: r5 => do
      let sp ← parse2 r5
      guard (sp.1 ≤ 59)
      match sp.2 with
      | [] => pure ⟨yp.1, mp.1, dp.1, hp.1, minp.1, sp.1⟩
      | '.' :: fr =>
        let fp := spanDigits fr
        if 1 ≤ fp.1.length ∧ fp.1.length ≤ 6 ∧ fp.2 = [] then
          pure ⟨yp.1, mp.1, dp.1, hp.1, minp.1, sp.1⟩
        else none
      | _ => none
    | _ => none

/-- StoredRecord models one JSON record object in time_records.json, with
the keys the program reads and writes; a field is none when the key is
absent from the object.  Elapsed seconds are modelled as exact rationals
in place of Python floats. -/
structure StoredRecord where
  start_time : Option String
  end_time : Option String
  elapsed : Option Rat
  comment : Option String
deriving DecidableEq

/-- Storage models the durable state of the DATA_FILE path: no file, a
zero-byte file (which json.load rejects), some other unparseable file, or
a file holding a parsed list of record objects. -/
inductive Storage where
  | absent
  | emptyFile
  | malformed
  | content (records : List StoredRecord)
deriving DecidableEq

/-- load_records embeds TimeTrackerApp.load_records: an absent file yields
the empty list; an existing file is parsed with json.load, which raises
JSONDecodeError (modelled as none) on empty or malformed content. -/
def load_records : Storage → Option (List StoredRecord)
  | .absent => some []
  | .emptyFile => none
  | .malformed => none
  | .content rs => some rs

/-- save_records embeds TimeTrackerApp.save_records: the completed write
leaves the file holding exactly the given record list. -/
def save_records (records : List StoredRecord) : Storage :=
  .content records

/-- save_records_trace lists the durable-storage states traversed while
save_records runs: the code calls open(DATA_FILE, "w"), which truncates
the file to zero bytes at once, and then json.dump streams the serialized
records into it.  Further partially-written (malformed) states can occur
between the second and the last entry; the truncated empty state always
occurs. -/
def save_records_trace (old : Storage) (records : List StoredRecord) :
    List Storage :=
  [old, .emptyFile, save_records records]

/-- save_time_record embeds TimeTrackerApp.save_time_record: it loads the
current records (json.load may raise), serializes the start timestamp with
start_time_dt.isoformat() — which raises AttributeError when
start_time_dt is None — appends the new record and saves the whole list. -/
def save_time_record (startDt : Option DateTime) (endDt : DateTime)
    (elapsedSeconds : Rat) (comment : String) (st : Storage) :
    Except PyError Storage :=
  match load_records st with
  | none => .error .jsonDecodeError
  | some records =>
    match startDt with
    | none => .error .attributeError
    | some sdt =>
      .ok (save_records (records ++
        [⟨some (isoformat sdt), some (isoformat endDt),
          some elapsedSeconds, some comment⟩]))

/-- TimerState models the four timer fields of TimeTrackerApp:
timer_running, start_time (the raw time.time() reading of the current
segment), start_time_dt (the datetime captured when Start was pressed)
and elapsed_time (accumulated seconds). -/
structure TimerState where
  timer_running : Bool
  start_time : Option Rat
  start_time_dt : Option DateTime
  elapsed_time : Rat
deriving DecidableEq

/-- initialTimerState is the state set up in TimeTrackerApp.init. -/
def initialTimerState : TimerState := ⟨false, none, none, 0⟩

/-- start_timer embeds TimeTrackerApp.start_timer; nowDt is the
datetime.now() reading and nowEpoch the time.time() reading.  The first
component is the warning message shown, if any. -/
def start_timer (s : TimerState) (nowDt : DateTime) (nowEpoch : Rat) :
    Option String × TimerState :=
  if s.timer_running then (some ("Timer is already running!"), s)
  else (none, ⟨true, some nowEpoch, some nowDt, 0⟩)

/-- pause_timer embeds TimeTrackerApp.pause_timer; the subtraction
time.time() - self.start_time raises TypeError when start_time is None. -/
def pause_timer (s : TimerState) (nowEpoch : Rat) :
    Except PyError (Option String × TimerState) :=
  if s.timer_running = false then
    .ok (some ("No timer is running to pause."), s)
  else
    match s.start_time with
    | some t0 =>
      .ok (none, { s with elapsed_time := s.elapsed_time + (nowEpoch - t0),
                          timer_running := false })
    | none => .error .typeError

/-- resume_timer embeds TimeTrackerApp.resume_timer: it only checks
timer_running, then starts a new segment. -/
def resume_timer (s : TimerState) (nowEpoch : Rat) :
    Option String × TimerState :=
  if s.timer_running then (some ("Timer is already running!"), s)
  else (none, { s with start_time := some nowEpoch, timer_running := true })

/-- stop_timer embeds TimeTrackerApp.stop_timer; nowEpoch is the
time.time() reading used to close an open segment, nowDt the
datetime.now() reading recorded as the end time, comment the dialog
result (none when the user cancelled) and st the durable storage.  On
success the state is fully reset. -/
def stop_timer (s : TimerState) (nowEpoch : Rat) (nowDt : DateTime)
    (comment : Option String) (st : Storage) :
    Except PyError (Option String × TimerState × Storage) :=
  if s.timer_running = false ∧ s.elapsed_time = 0 then
    .ok (some ("No active or paused session to stop."), s, st)
  else
    let fin : Except PyError TimerState :=
      if s.timer_running then
        match s.start_time with
        | some t0 =>
          .ok { s with elapsed_time := s.elapsed_time + (nowEpoch - t0),
                       timer_running := false }
        | none => .error .typeError
      else .ok s
    match fin with
    | .error e => .error e
    | .ok s1 =>
      match save_time_record s1.start_time_dt nowDt s1.elapsed_time
          (comment.getD "") st with
      | .error e => .error e
      | .ok st1 => .ok (none, ⟨false, none, none, 0⟩, st1)

/-- EditOutcome is the observable result of the edit dialog's
save_changes callback: one of its two error dialogs (after which nothing
is written) or a successful save of the updated record list. -/
inductive EditOutcome where
  | invalidFormat
  | endBeforeStart
  | saved (records : List StoredRecord)
deriving DecidableEq

/-- save_changes embeds the save_changes closure inside
edit_selected_record: both entry strings are parsed with strptime
(%Y-%m-%d %H:%M:%S); if either fails, the invalid-format error dialog is
shown and nothing is stored; if the parsed end is strictly before the
parsed start, the end-before-start error dialog is shown and nothing is
stored; otherwise the record at the given index is rewritten with the
isoformat timestamps, the recomputed elapsed seconds and the comment
verbatim, and the whole list is saved. -/
def save_changes (newStart newEnd newComment : String)
    (records : List StoredRecord) (index : Nat) : EditOutcome :=
  match strptimeDateTime newStart, strptimeDateTime newEnd with
  | some ds, some de =>
    if dtLt de ds then .endBeforeStart
    else
      .saved (records.set index
        ⟨some (isoformat ds), some (isoformat de),
         some ((toEpochSeconds de - toEpochSeconds ds : Int) : Rat),
         some newComment⟩)
  | _, _ => .invalidFormat

/-- Cell models one spreadsheet cell handed to the worksheet: either a
string or a number. -/
inductive Cell where
  | str (s : String)
  | num (q : Rat)
deriving DecidableEq

/-- headerRow is the header appended first by export_data_to_excel. -/
def headerRow : List Cell :=
  [.str ("Start Time"), .str ("End Time"), .str ("Elapsed (seconds)"),
   .str ("Comment")]

/-- blankRow is the separator row appended before the summary rows. -/
def blankRow : List Cell := [.str (""), .str (""), .str (""), .str ("")]

/-- cellOfOptStr models rec.get(key, the empty-string default) for a
string-valued key. -/
def cellOfOptStr : Option String → Cell
  | some s => .str s
  | none => .str ("")

/-- cellOfOptNum models rec.get(key, the empty-string default) for the
numeric elapsed key. -/
def cellOfOptNum : Option Rat → Cell
  | some q => .num q
  | none => .str ("")

/-- recordRow is the data row export_data_to_excel appends for one
record. -/
def recordRow (r : StoredRecord) : List Cell :=
  [cellOfOptStr r.start_time, cellOfOptStr r.end_time,
   cellOfOptNum r.elapsed, cellOfOptStr r.comment]

/-- sumElapsed models the generator sum over rec["elapsed"]: a missing
key raises KeyError (none); otherwise the values are summed exactly. -/
def sumElapsed : List StoredRecord → Option Rat
  | [] => some 0
  | r :: rs =>
    match r.elapsed, sumElapsed rs with
    | some e, some t => some (e + t)
    | _, _ => none

/-- selectRange embeds the filtering loop of export_data_to_excel: a
record is kept when its start_time key exists (KeyError is caught), the
string parses with fromisoformat (ValueError is caught) and its calendar
date lies inclusively between the two given dates. -/
def selectRange (records : List StoredRecord) (ds de : Date) :
    List StoredRecord :=
  records.filter fun r =>
    match r.start_time with
    | none => false
    | some s =>
      match isoParse s with
      | none => false
      | some dt => date_le ds (dtDate dt) && date_le (dtDate dt) de

/-- ratFloor is the floor of a rational as an integer. -/
def ratFloor (q : Rat) : Int := Int.fdiv q.num q.den

/-- roundHalfEven rounds a rational to the nearest integer, ties to the
even neighbour, as Python float formatting does. -/
def roundHalfEven (q : Rat) : Int :=
  let f := ratFloor q
  let r := q - (f : Rat)
  if r < (1 : Rat) / 2 then f
  else if (1 : Rat) / 2 < r then f + 1
  else if f % 2 = 0 then f else f + 1

/-- formatFixed2 models rendering a nonnegative-or-negative number with
the two-decimal fixed format used for the total hours (round-half-even,
always two digits after the point). -/
def formatFixed2 (q : Rat) : String :=
  let n := roundHalfEven (q * 100)
  if n < 0 then
    "-" ++ toString ((-n).toNat / 100) ++ "." ++ pad2 ((-n).toNat % 100)
  else
    toString (n.toNat / 100) ++ "." ++ pad2 (n.toNat % 100)

/-- totalSecondsRow is the summary row holding the exact total seconds. -/
def totalSecondsRow (t : Rat) : List Cell :=
  [.str (""), .str (""), .num t, .str ("TOTAL SECONDS")]

/-- totalHoursRow is the summary row holding the total hours rendered at
two decimals. -/
def totalHoursRow (t : Rat) : List Cell :=
  [.str (""), .str (""), .str (formatFixed2 (t / 3600)),
   .str ("TOTAL HOURS")]

/-- export_data_to_excel embeds the export routine on an already-loaded
record list: both date strings are parsed with strptime (%Y-%m-%d),
raising ValueError with the format message if either fails; records are
filtered by start date; an empty selection raises ValueError with the
no-records message; the summation rec["elapsed"] raises KeyError if a
selected record lacks the key; otherwise the full row sequence handed to
the workbook is returned. -/
def export_data_to_excel (startStr endStr : String)
    (records : List StoredRecord) : Except PyError (List (List Cell)) :=
  match strptimeDate startStr, strptimeDate endStr with
  | some ds, some de =>
    let filtered := selectRange records ds de
    if filtered = [] then
      .error (.valueError ("No records found in the specified date range."))
    else
      match sumElapsed filtered with
      | none => .error .keyError
      | some total =>
        .ok (headerRow :: filtered.map recordRow ++
          [blankRow, totalSecondsRow total, totalHoursRow total])
  | _, _ => .error (.valueError ("Dates must be in YYYY-MM-DD format."))

/-- exampleRecordA is the first record of the specification's scenario. -/
def exampleRecordA : StoredRecord :=
  ⟨some ("2025-01-01T09:00:00"), some ("2025-01-01T10:30:00"),
   some 5400, some ("A")⟩

/-- exampleRecordB is the second record of the specification's scenario. -/
def exampleRecordB : StoredRecord :=
  ⟨some ("2025-01-02T09:00:00"), some ("2025-01-02T09:15:00"),
   some 900, some ("B")⟩

/-- keepRecord is the predicate of the export filter loop, split out for
reasoning: kept when the start_time key exists, parses, and its date lies
in the inclusive range. -/
def keepRecord (ds de : Date) (r : StoredRecord) : Bool :=
  match r.start_time with
  | none => false
  | some s =>
    match isoParse s with
    | none => false
    | some dt => date_le ds (dtDate dt) && date_le (dtDate dt) de

theorem selectRange_eq_filter (records : List StoredRecord) (ds de : Date) :
    selectRange records ds de = records.filter (keepRecord ds de) := by
  unfold selectRange keepRecord
  rfl

theorem keepRecord_iff (ds de : Date) (r : StoredRecord) :
    keepRecord ds de r = true ↔
      ∃ str dt, r.start_time = some str ∧ isoParse str = some dt ∧
        date_le ds (dtDate dt) = true ∧ date_le (dtDate dt) de = true := by
  unfold keepRecord
  cases hst : r.start_time with
  | none => simp
  | some s =>
    cases hp : isoParse s with
    | none => simp [hp]
    | some dt => simp [hp, Bool.and_eq_true]

theorem date_le_antisymm_iff (d x : Date) :
    (date_le d x = true ∧ date_le x d = true) ↔ x = d := by
  obtain ⟨a1, b1, c1⟩ := d
  obtain ⟨a2, b2, c2⟩ := x
  simp only [date_le, Bool.or_eq_true, Bool.and_eq_true, decide_eq_true_eq,
    Date.mk.injEq]
  omega

theorem date_between_inverted_false (ds de x : Date)
    (h : date_lt de ds = true) :
    (date_le ds x && date_le x de) = false := by
  obtain ⟨a1, b1, c1⟩ := ds
  obtain ⟨a2, b2, c2⟩ := de
  obtain ⟨a3, b3, c3⟩ := x
  simp only [date_le, date_lt, Bool.or_eq_true, Bool.and_eq_true,
    decide_eq_true_eq, Bool.and_eq_false_iff, Bool.or_eq_false_iff,
    Bool.and_eq_false_imp, decide_eq_false_iff_not] at *
  omega

theorem selectRange_inverted_empty (records : List StoredRecord)
    (ds de : Date) (h : date_lt de ds = true) :
    selectRange records ds de = [] := by
  rw [selectRange_eq_filter]
  induction records with
  | nil => rfl
  | cons r tl ih =>
    rw [List.filter_cons]
    have hk : keepRecord ds de r = false := by
      cases hst : r.start_time with
      | none => simp [keepRecord, hst]
      | some s =>
        cases hp : isoParse s with
        | none => simp [keepRecord, hst, hp]
        | some dt =>
          simp [keepRecord, hst, hp,
            date_between_inverted_false ds de (dtDate dt) h]
    simp [hk, ih]

theorem dtLt_self (a : DateTime) : dtLt a a = false := by
  simp [dtLt]

theorem sumElapsed_eq_sum (rs : List StoredRecord) :
    ∀ T, sumElapsed rs = some T →
      T = (rs.map fun r => r.elapsed.getD 0).sum := by
  induction rs with
  | nil =>
    intro T h
    simp only [sumElapsed, Option.some.injEq] at h
    simp [← h]
  | cons r tl ih =>
    intro T h
    cases he : r.elapsed with
    | none => simp [sumElapsed, he] at h
    | some e =>
      cases ht : sumElapsed tl with
      | none => simp [sumElapsed, he, ht] at h
      | some t =>
        simp only [sumElapsed, he, ht, Option.some.injEq] at h
        have := ih t ht
        simp [← h, he, ← this]

/-- C1 (counterexample): from a reachable Paused state (start at epoch
100, pause at epoch 160), start_timer does not fail with the
already-running warning: it proceeds silently and replaces the paused
session with a fresh one, so the state changes. -/
theorem start_from_paused_counterexample :
    start_timer initialTimerState ⟨2025, 1, 1, 9, 0, 0⟩ 100 =
      (none, ⟨true, some 100, some ⟨2025, 1, 1, 9, 0, 0⟩, 0⟩) ∧
    pause_timer ⟨true, some 100, some ⟨2025, 1, 1, 9, 0, 0⟩, 0⟩ 160 =
      .ok (none, ⟨false, some 100, some ⟨2025, 1, 1, 9, 0, 0⟩, 60⟩) ∧
    (start_timer ⟨false, some 100, some ⟨2025, 1, 1, 9, 0, 0⟩, 60⟩
        ⟨2025, 1, 2, 9, 0, 0⟩ 200).1 = none ∧
    (start_timer ⟨false, some 100, some ⟨2025, 1, 1, 9, 0, 0⟩, 60⟩
        ⟨2025, 1, 2, 9, 0, 0⟩ 200).2 ≠
      ⟨false, some 100, some ⟨2025, 1, 1, 9, 0, 0⟩, 60⟩ := by
  refine ⟨rfl, ?_, rfl, by decide⟩
  simp only [pause_timer]
  norm_num

/-- C1 (amended): start_timer fails with the already-running warning and
changes nothing exactly when timer_running is true (the Running state);
whenever timer_running is false — which includes every Paused state as
well as Idle — it succeeds and begins a fresh session, resetting the
accumulated time. -/
theorem start_timer_spec (s : TimerState) (dt : DateTime) (t : Rat) :
    (s.timer_running = true →
      start_timer s dt t = (some ("Timer is already running!"), s)) ∧
    (s.timer_running = false →
      start_timer s dt t = (none, ⟨true, some t, some dt, 0⟩)) := by
  constructor <;> intro h <;> simp [start_timer, h]

/-- C1 (witness): the amended start_timer behaviour at a concrete Running
state and at the Idle state. -/
theorem start_timer_spec_witness :
    start_timer ⟨true, some 5, some ⟨2025, 1, 1, 9, 0, 0⟩, 7⟩
        ⟨2025, 1, 2, 9, 0, 0⟩ 9 =
      (some ("Timer is already running!"),
       ⟨true, some 5, some ⟨2025, 1, 1, 9, 0, 0⟩, 7⟩) ∧
    start_timer initialTimerState ⟨2025, 1, 2, 9, 0, 0⟩ 9 =
      (none, ⟨true, some 9, some ⟨2025, 1, 2, 9, 0, 0⟩, 0⟩) :=
  ⟨(start_timer_spec ⟨true, some 5, some ⟨2025, 1, 1, 9, 0, 0⟩, 7⟩
      ⟨2025, 1, 2, 9, 0, 0⟩ 9).1 rfl,
   (start_timer_spec initialTimerState ⟨2025, 1, 2, 9, 0, 0⟩ 9).2 rfl⟩

/-- C2 (code bug, evaluated at the failing input): resume_timer called in
the initial Idle state does not fail with a not-running warning — it
silently enters the running state with no session start timestamp, and a
subsequent stop_timer crashes with AttributeError while serializing the
None start timestamp, instead of the claimed NotRunning failure with no
state change. -/
theorem resume_idle_bug :
    resume_timer initialTimerState 100 =
      (none, ⟨true, some 100, none, 0⟩) ∧
    stop_timer ⟨true, some 100, none, 0⟩ 160 ⟨2025, 1, 1, 9, 1, 0⟩ none
      (.content []) = .error .attributeError :=
  ⟨rfl, rfl⟩

/-- C10: the record-building branch of stop_timer is reachable with
sessionStartTimestamp = None: resume_timer from the initial Idle state
yields a running state whose start_time_dt is still none, and stop_timer
from that state reaches save_time_record, whose serialization of the
start timestamp fails with AttributeError instead of producing a
well-formed record. -/
theorem resume_then_stop_crash :
    (resume_timer initialTimerState 100).2.start_time_dt = none ∧
    (resume_timer initialTimerState 100).2.timer_running = true ∧
    save_time_record none ⟨2025, 1, 1, 9, 1, 0⟩ 60 "" (.content []) =
      .error .attributeError ∧
    stop_timer (resume_timer initialTimerState 100).2 160
      ⟨2025, 1, 1, 9, 1, 0⟩ none (.content []) = .error .attributeError :=
  ⟨rfl, rfl, rfl, rfl⟩

/-- C4 (counterexample): the save procedure traverses the truncated-empty
storage state, which differs from both the previous content and the new
content and cannot even be loaded — so an interruption between
truncation and write completion leaves neither the complete previous
content nor the complete new sequence. -/
theorem save_atomicity_counterexample :
    save_records_trace (.content [exampleRecordA]) [exampleRecordB] =
      [.content [exampleRecordA], .emptyFile, .content [exampleRecordB]] ∧
    Storage.emptyFile ∈
      save_records_trace (.content [exampleRecordA]) [exampleRecordB] ∧
    Storage.emptyFile ≠ Storage.content [exampleRecordA] ∧
    Storage.emptyFile ≠ Storage.content [exampleRecordB] ∧
    load_records Storage.emptyFile = none := by
  refine ⟨rfl, ?_, by decide, by decide, rfl⟩
  simp [save_records_trace]

/-- C4 (amended): save_records overwrites durable storage with the full
given sequence by truncating the target file in place and writing the
serialized records directly — a completed save leaves exactly the new
sequence, but the write is not atomic: it always passes through the
truncated empty state, which holds neither the previous nor the new
content (no temporary-location-then-move is used). -/
theorem save_overwrite_not_atomic (old : Storage)
    (records : List StoredRecord) :
    (save_records_trace old records).getLast? =
      some (save_records records) ∧
    load_records (save_records records) = some records ∧
    Storage.emptyFile ∈ save_records_trace old records ∧
    load_records Storage.emptyFile = none := by
  refine ⟨rfl, rfl, ?_, rfl⟩
  simp [save_records_trace]

/-- C9: for every storage state from which load_records succeeds, saving
the loaded records back preserves the record content of durable storage —
and when the storage already holds a record list, the storage value is
exactly unchanged. -/
theorem store_roundtrip (st : Storage) (rs : List StoredRecord)
    (h : load_records st = some rs) :
    load_records (save_records rs) = load_records st ∧
    (∀ rs0, st = .content rs0 → save_records rs = st) := by
  cases st <;> simp_all [load_records, save_records]

/-- C9 (witness): the round trip at a concrete one-record storage
state. -/
theorem store_roundtrip_witness :
    load_records (save_records [exampleRecordA]) =
      load_records (Storage.content [exampleRecordA]) ∧
    save_records [exampleRecordA] = Storage.content [exampleRecordA] :=
  ⟨(store_roundtrip (Storage.content [exampleRecordA]) [exampleRecordA]
      rfl).1,
   (store_roundtrip (Storage.content [exampleRecordA]) [exampleRecordA]
      rfl).2 [exampleRecordA] rfl⟩

/-- C5 (counterexample): a reachable Paused state with zero accumulated
time (start at epoch 100, pause at epoch 100) is a state in which a
session has been started, yet stop_timer fails with the no-active-session
warning and saves no record, instead of finalizing the session. -/
theorem stop_paused_zero_counterexample :
    start_timer initialTimerState ⟨2025, 1, 1, 9, 0, 0⟩ 100 =
      (none, ⟨true, some 100, some ⟨2025, 1, 1, 9, 0, 0⟩, 0⟩) ∧
    pause_timer ⟨true, some 100, some ⟨2025, 1, 1, 9, 0, 0⟩, 0⟩ 100 =
      .ok (none, ⟨false, some 100, some ⟨2025, 1, 1, 9, 0, 0⟩, 0⟩) ∧
    stop_timer ⟨false, some 100, some ⟨2025, 1, 1, 9, 0, 0⟩, 0⟩ 200
        ⟨2025, 1, 1, 10, 0, 0⟩ (some "c") (.content []) =
      .ok (some ("No active or paused session to stop."),
        ⟨false, some 100, some ⟨2025, 1, 1, 9, 0, 0⟩, 0⟩, .content []) := by
  refine ⟨rfl, ?_, rfl⟩
  simp only [pause_timer]
  norm_num

/-- C5 (amended): stop_timer succeeds from every Running state with a
recorded session start (including zero accumulated time immediately after
start), finalizing the open segment, appending the record
(sessionStartTimestamp, endTimestamp = now, accumulatedSeconds) and
resetting to the initial Idle state; from a Paused state it succeeds only
when the accumulated time is nonzero, because the code distinguishes
Idle solely by the conjunction not-running and zero accumulated time —
from Idle, and equally from a Paused state with zero accumulated time, it
fails with the no-active-session warning and saves no record. -/
theorem stop_timer_spec (s : TimerState) (tE : Rat) (dtN : DateTime)
    (c : Option String) (rs : List StoredRecord) :
    (∀ sdt t0, s.start_time_dt = some sdt → s.timer_running = true →
      s.start_time = some t0 →
      stop_timer s tE dtN c (.content rs) =
        .ok (none, initialTimerState, .content (rs ++
          [⟨some (isoformat sdt), some (isoformat dtN),
            some (s.elapsed_time + (tE - t0)), some (c.getD "")⟩]))) ∧
    (∀ sdt, s.start_time_dt = some sdt → s.timer_running = false →
      s.elapsed_time ≠ 0 →
      stop_timer s tE dtN c (.content rs) =
        .ok (none, initialTimerState, .content (rs ++
          [⟨some (isoformat sdt), some (isoformat dtN),
            some s.elapsed_time, some (c.getD "")⟩]))) ∧
    (s.timer_running = false → s.elapsed_time = 0 →
      stop_timer s tE dtN c (.content rs) =
        .ok (some ("No active or paused session to stop."), s,
          .content rs)) := by
  refine ⟨?_, ?_, ?_⟩
  · intro sdt t0 hdt hrun hst
    simp [stop_timer, hrun, hst, hdt, save_time_record, load_records,
      save_records, initialTimerState]
  · intro sdt hdt hrun hne
    simp [stop_timer, hrun, hne, hdt, save_time_record, load_records,
      save_records, initialTimerState]
  · intro hrun hz
    simp [stop_timer, hrun, hz]

/-- C5 (witness): the amended stop_timer behaviour at a concrete Running
state with zero accumulated time (start then immediately stop), a
concrete Paused state with one minute accumulated, and the Idle state. -/
theorem stop_timer_spec_witness :
    stop_timer ⟨true, some 100, some ⟨2025, 1, 1, 9, 0, 0⟩, 0⟩ 160
        ⟨2025, 1, 1, 9, 1, 0⟩ none (.content []) =
      .ok (none, initialTimerState, .content
        [⟨some ("2025-01-01T09:00:00"), some ("2025-01-01T09:01:00"),
          some 60, some ("")⟩]) ∧
    stop_timer ⟨false, some 100, some ⟨2025, 1, 1, 9, 0, 0⟩, 60⟩ 300
        ⟨2025, 1, 1, 9, 5, 0⟩ (some "done") (.content []) =
      .ok (none, initialTimerState, .content
        [⟨some ("2025-01-01T09:00:00"), some ("2025-01-01T09:05:00"),
          some 60, some ("done")⟩]) ∧
    stop_timer initialTimerState 300 ⟨2025, 1, 1, 9, 5, 0⟩ none
      (.content []) =
      .ok (some ("No active or paused session to stop."),
        initialTimerState, .content []) := by
  refine ⟨?_, ?_, ?_⟩
  · have h := (stop_timer_spec ⟨true, some 100, some ⟨2025, 1, 1, 9, 0, 0⟩, 0⟩
      160 ⟨2025, 1, 1, 9, 1, 0⟩ none []).1 ⟨2025, 1, 1, 9, 0, 0⟩ 100
      rfl rfl rfl
    rw [h]
    simp only [Except.ok.injEq, Prod.mk.injEq, Storage.content.injEq,
      List.nil_append, List.cons.injEq, StoredRecord.mk.injEq,
      Option.some.injEq]
    norm_num
    exact ⟨rfl, rfl⟩
  · have h := (stop_timer_spec ⟨false, some 100, some ⟨2025, 1, 1, 9, 0, 0⟩, 60⟩
      300 ⟨2025, 1, 1, 9, 5, 0⟩ (some "done") []).2.1 ⟨2025, 1, 1, 9, 0, 0⟩
      rfl rfl (by norm_num)
    rw [h]
    rfl
  · exact (stop_timer_spec initialTimerState 300 ⟨2025, 1, 1, 9, 5, 0⟩
      none []).2.2 rfl rfl

/-- C3 (counterexample): with endDate strictly before startDate (a
concrete inverted range over one stored record), the export does not fail
with an invalid-date-range error: the inclusive filter simply matches
nothing and the export fails with the no-records ValueError. -/
theorem export_inverted_range_counterexample :
    strptimeDate "2025-01-02" = some ⟨2025, 1, 2⟩ ∧
    strptimeDate "2025-01-01" = some ⟨2025, 1, 1⟩ ∧
    date_lt ⟨2025, 1, 1⟩ ⟨2025, 1, 2⟩ = true ∧
    export_data_to_excel "2025-01-02" "2025-01-01" [exampleRecordA] =
      .error (.valueError ("No records found in the specified date range.")) :=
  ⟨rfl, rfl, rfl, rfl⟩

/-- C3 (amended): for every record sequence, whenever both date strings
parse and the end date is strictly before the start date, no record can
satisfy the inclusive filter, so the export fails with the no-records
ValueError — there is no dedicated invalid-date-range check. -/
theorem export_inverted_range_spec (ss es : String)
    (records : List StoredRecord) (ds de : Date)
    (h1 : strptimeDate ss = some ds) (h2 : strptimeDate es = some de)
    (h3 : date_lt de ds = true) :
    export_data_to_excel ss es records =
      .error (.valueError ("No records found in the specified date range.")) := by
  have he : selectRange records ds de = [] :=
    selectRange_inverted_empty records ds de h3
  simp [export_data_to_excel, h1, h2, he]

/-- C3 (witness): the amended behaviour at a concrete inverted range
over a two-record store. -/
theorem export_inverted_range_spec_witness :
    date_lt ⟨2025, 1, 1⟩ ⟨2025, 1, 2⟩ = true ∧
    export_data_to_excel "2025-01-02" "2025-01-01"
        [exampleRecordA, exampleRecordB] =
      .error (.valueError ("No records found in the specified date range.")) :=
  ⟨rfl, export_inverted_range_spec "2025-01-02" "2025-01-01"
    [exampleRecordA, exampleRecordB] ⟨2025, 1, 2⟩ ⟨2025, 1, 1⟩ rfl rfl rfl⟩

/-- C6: the edit dialog's save callback fails with the invalid-format
error exactly when either time string fails to parse in the
YYYY-MM-DD HH:MM:SS format; when both parse, it fails with the
end-before-start error exactly when the parsed end is strictly earlier
than the parsed start; otherwise (equal timestamps permitted) it saves
the record rewritten with elapsedSeconds equal to the total seconds of
the difference and the comment stored verbatim — and with equal start
and end the saved elapsedSeconds is zero.  Both failure outcomes store
nothing. -/
theorem save_changes_spec (st en c : String) (records : List StoredRecord)
    (i : Nat) :
    (save_changes st en c records i = .invalidFormat ↔
      strptimeDateTime st = none ∨ strptimeDateTime en = none) ∧
    (∀ ds de, strptimeDateTime st = some ds → strptimeDateTime en = some de →
      ((save_changes st en c records i = .endBeforeStart) ↔
        dtLt de ds = true) ∧
      (dtLt de ds = false →
        save_changes st en c records i = .saved (records.set i
          ⟨some (isoformat ds), some (isoformat de),
           some ((toEpochSeconds de - toEpochSeconds ds : Int) : Rat),
           some c⟩)) ∧
      (de = ds → save_changes st en c records i = .saved (records.set i
        ⟨some (isoformat ds), some (isoformat ds), some 0, some c⟩))) := by
  constructor
  · cases h1 : strptimeDateTime st with
    | none => simp [save_changes, h1]
    | some ds =>
      cases h2 : strptimeDateTime en with
      | none => simp [save_changes, h1, h2]
      | some de =>
        by_cases hlt : dtLt de ds = true
        · simp [save_changes, h1, h2, hlt]
        · simp [save_changes, h1, h2, hlt]
  · intro ds de h1 h2
    refine ⟨?_, ?_, ?_⟩
    · by_cases hlt : dtLt de ds = true
      · simp [save_changes, h1, h2, hlt]
      · simp [save_changes, h1, h2, hlt]
    · intro hlt
      simp [save_changes, h1, h2, hlt]
    · intro heq
      subst heq
      simp [save_changes, h1, h2, dtLt_self]

/-- C6 (witness): the specification's example — end one hour before
start — fails with the end-before-start error; a well-formed edit with
equal timestamps saves a zero-elapsed record. -/
theorem save_changes_spec_witness :
    strptimeDateTime "2025-01-01 10:00:00" =
      some ⟨2025, 1, 1, 10, 0, 0⟩ ∧
    save_changes "2025-01-01 10:00:00" "2025-01-01 09:00:00" "x" [] 0 =
      .endBeforeStart ∧
    save_changes "2025-01-01 10:00:00" "2025-01-01 10:00:00" "x"
        [exampleRecordA] 0 =
      .saved [⟨some ("2025-01-01T10:00:00"), some ("2025-01-01T10:00:00"),
        some 0, some ("x")⟩] := by
  refine ⟨rfl, ?_, ?_⟩
  · exact ((save_changes_spec "2025-01-01 10:00:00" "2025-01-01 09:00:00"
      "x" [] 0).2 ⟨2025, 1, 1, 10, 0, 0⟩ ⟨2025, 1, 1, 9, 0, 0⟩ rfl
      rfl).1.mpr rfl
  · have h := ((save_changes_spec "2025-01-01 10:00:00"
      "2025-01-01 10:00:00" "x" [exampleRecordA] 0).2
      ⟨2025, 1, 1, 10, 0, 0⟩ ⟨2025, 1, 1, 10, 0, 0⟩ rfl rfl).2.2 rfl
    rw [h]
    rfl

/-- C7: selectRange keeps the stored order (its result is a sublist of
the input), keeps exactly the records whose start_time exists, parses,
and has its calendar date inclusively between the two dates (records
whose start time is missing or unparseable are silently excluded, never
an error), and with equal start and end date it keeps exactly the records
whose start date equals that single day. -/
theorem selectRange_spec (records : List StoredRecord) (ds de : Date) :
    List.Sublist (selectRange records ds de) records ∧
    (∀ r, r ∈ selectRange records ds de ↔ r ∈ records ∧
      ∃ str dt, r.start_time = some str ∧ isoParse str = some dt ∧
        date_le ds (dtDate dt) = true ∧ date_le (dtDate dt) de = true) ∧
    (∀ r, r ∈ selectRange records ds ds ↔ r ∈ records ∧
      ∃ str dt, r.start_time = some str ∧ isoParse str = some dt ∧
        dtDate dt = ds) := by
  refine ⟨?_, ?_, ?_⟩
  · rw [selectRange_eq_filter]
    exact List.filter_sublist records
  · intro r
    rw [selectRange_eq_filter, List.mem_filter, keepRecord_iff]
  · intro r
    rw [selectRange_eq_filter, List.mem_filter, keepRecord_iff]
    constructor
    · rintro ⟨hm, str, dt, hst, hp, hle1, hle2⟩
      exact ⟨hm, str, dt, hst, hp, (date_le_antisymm_iff ds (dtDate dt)).mp
        ⟨hle1, hle2⟩⟩
    · rintro ⟨hm, str, dt, hst, hp, heq⟩
      refine ⟨hm, str, dt, hst, hp, ?_, ?_⟩
      · exact heq ▸ ((date_le_antisymm_iff ds ds).mpr rfl).1
      · exact heq ▸ ((date_le_antisymm_iff ds ds).mpr rfl).2

/-- C8: whenever both date strings parse, the selection is nonempty and
every selected record carries an elapsed value summing to T, the export
produces exactly the header row, one row per selected record in stored
order, a blank separator row, the row with the exact total seconds T and
the label TOTAL SECONDS, and the row with T divided by 3600 rendered at
two decimals (round-half-even) and the label TOTAL HOURS — and T is the
exact sum of the selected records' elapsed seconds. -/
theorem export_table_spec (ss es : String) (records : List StoredRecord)
    (ds de : Date) (T : Rat)
    (h1 : strptimeDate ss = some ds) (h2 : strptimeDate es = some de)
    (h3 : selectRange records ds de ≠ [])
    (h4 : sumElapsed (selectRange records ds de) = some T) :
    export_data_to_excel ss es records =
      .ok (headerRow :: (selectRange records ds de).map recordRow ++
        [blankRow,
         [Cell.str (""), Cell.str (""), Cell.num T,
          Cell.str ("TOTAL SECONDS")],
         [Cell.str (""), Cell.str (""),
          Cell.str (formatFixed2 (T / 3600)), Cell.str ("TOTAL HOURS")]]) ∧
    T = ((selectRange records ds de).map fun r => r.elapsed.getD 0).sum := by
  refine ⟨?_, sumElapsed_eq_sum (selectRange records ds de) T h4⟩
  simp [export_data_to_excel, h1, h2, h3, h4, totalSecondsRow,
    totalHoursRow]

/-- C8 (witness): the specification's two-record scenario — elapsed 5400
and 900, exported over the range 2025-01-01 to 2025-01-02 — yields the
exact table with total seconds 6300 and total hours rendered 1.75. -/
theorem export_table_spec_witness :
    export_data_to_excel "2025-01-01" "2025-01-02"
        [exampleRecordA, exampleRecordB] =
      .ok [[Cell.str ("Start Time"), Cell.str ("End Time"),
            Cell.str ("Elapsed (seconds)"), Cell.str ("Comment")],
           [Cell.str ("2025-01-01T09:00:00"),
            Cell.str ("2025-01-01T10:30:00"), Cell.num 5400,
            Cell.str ("A")],
           [Cell.str ("2025-01-02T09:00:00"),
            Cell.str ("2025-01-02T09:15:00"), Cell.num 900,
            Cell.str ("B")],
           [Cell.str (""), Cell.str (""), Cell.str (""), Cell.str ("")],
           [Cell.str (""), Cell.str (""), Cell.num 6300,
            Cell.str ("TOTAL SECONDS")],
           [Cell.str (""), Cell.str (""), Cell.str ("1.75"),
            Cell.str ("TOTAL HOURS")]] ∧
    (6300 : Rat) =
      ((selectRange [exampleRecordA, exampleRecordB] ⟨2025, 1, 1⟩
        ⟨2025, 1, 2⟩).map fun r => r.elapsed.getD 0).sum := by
  have hsel : selectRange [exampleRecordA, exampleRecordB] ⟨2025, 1, 1⟩
      ⟨2025, 1, 2⟩ = [exampleRecordA, exampleRecordB] := rfl
  have hsum : sumElapsed [exampleRecordA, exampleRecordB] = some 6300 := by
    norm_num [sumElapsed, exampleRecordA, exampleRecordB]
  have h := export_table_spec "2025-01-01" "2025-01-02"
    [exampleRecordA, exampleRecordB] ⟨2025, 1, 1⟩ ⟨2025, 1, 2⟩ 6300
    rfl rfl (by rw [hsel]; simp) (by rw [hsel]; exact hsum)
  refine ⟨?_, h.2⟩
  rw [h.1, hsel]
  have hform : formatFixed2 ((6300 : Rat) / 3600) = "1.75" := by
    norm_num [formatFixed2, roundHalfEven, ratFloor]
    rfl
  rw [hform]
  rfl
